import Mathlib

/-!
Verification of the ComEd 5-minute pricing dashboard core
(`comed_pricing_dashboard.py`): timestamp normalization
(`convert_to_chicago_time`), feed parsing (`process_data_for_plotting`),
week windowing (`get_week_boundaries`) and per-week aggregation
(`create_weekly_chart`).

Modelling conventions:
- Instants and wall-clock datetimes are microsecond counts (`Int`) on a
  proleptic timeline; `AwareDT` pairs a wall-clock value with a fixed UTC
  offset in seconds, mirroring a Python aware `datetime`.
- Python strings are modelled as `List Char`; `strChars` converts a Lean
  string literal.
- Python floats are modelled as exact rationals (`ℚ`).  This is exact for
  every quantity the verified claims touch: prices with short decimal
  representations, and epoch milliseconds below `2^33 · 1000`, the bound
  (stated on `convert_to_chicago_time` and carried as a hypothesis by the
  normalizer claim) under which the program's float pipeline is
  microsecond-exact.
- JSON payloads are modelled by the inductive `JValue`.
-/

namespace ComedDash

/-- Microseconds per second. -/
def usPerSec : Int := 1000000

/-- Microseconds per minute. -/
def usPerMin : Int := 60000000

/-- Microseconds per hour. -/
def usPerHour : Int := 3600000000

/-- Microseconds per day. -/
def usPerDay : Int := 86400000000

/-- Convert a Lean string literal to the `List Char` model of Python strings. -/
def strChars (s : String) : List Char := s.data

/-- Days since the Unix epoch (1970-01-01) of the civil date `y-m-d`,
proleptic Gregorian (standard civil-from-days algorithm). -/
def daysFromCivil (y m d : Int) : Int :=
  let y2 := if m ≤ 2 then y - 1 else y
  let era := (if 0 ≤ y2 then y2 else y2 - 399) / 400
  let yoe := y2 - era * 400
  let mp := (m + 9) % 12
  let doy := (153 * mp + 2) / 5 + d - 1
  let doe := yoe * 365 + yoe / 4 - yoe / 100 + doy
  era * 146097 + doe - 719468

/-- Civil date `(y, m, d)` of a day count since the Unix epoch (inverse of
`daysFromCivil`; standard days-from-civil algorithm, used here only on
nonnegative shifted day counts). -/
def civilFromDays (z0 : Int) : Int × Int × Int :=
  let z := z0 + 719468
  let era := (if 0 ≤ z then z else z - 146096) / 146097
  let doe := z - era * 146097
  let yoe := (doe - doe / 1460 + doe / 36524 - doe / 146096) / 365
  let y := yoe + era * 400
  let doy := doe - (365 * yoe + yoe / 4 - yoe / 100)
  let mp := (5 * doy + 2) / 153
  let d := doy - (153 * mp + 2) / 5 + 1
  let m := mp + (if mp < 10 then 3 else -9)
  (y + (if m ≤ 2 then 1 else 0), m, d)

/-- Python `datetime.weekday()` (Monday = 0 … Sunday = 6) of a wall-clock
microsecond count: 1970-01-01 (day 0) was a Thursday (= 3). -/
def pyWeekdayUs (w : Int) : Int := (w / usPerDay + 3) % 7

/-- Gregorian leap-year test. -/
def isLeapYear (y : Nat) : Bool := (y % 4 == 0 && y % 100 != 0) || y % 400 == 0

/-- Number of days in month `mo` of year `y`. -/
def daysInMonth (y mo : Nat) : Nat :=
  if mo = 2 then (if isLeapYear y then 29 else 28)
  else if mo = 4 ∨ mo = 6 ∨ mo = 9 ∨ mo = 11 then 30 else 31

/-- A Python aware `datetime`: a civil wall-clock reading (microseconds) plus
the fixed UTC offset (seconds) its `tzinfo` reports at that reading. -/
structure AwareDT where
  wall : Int
  offsetSec : Int
deriving DecidableEq

/-- Absolute UTC instant (microseconds since the Unix epoch) of an aware
datetime: wall-clock reading minus its UTC offset. -/
def AwareDT.utc (d : AwareDT) : Int := d.wall - d.offsetSec * usPerSec

/-- UTC offset (seconds) of `pytz.timezone("America/Chicago")` when it is
attached to a datetime by `datetime.replace(tzinfo=...)`: pytz's zone object
carries the tzdata zone's first entry, local mean time LMT = UTC−5:50:36,
rounded by pytz to the whole minute it reports — UTC−5:51:00 = −21060 s —
until `localize`/`astimezone` fixes it up.  `replace` performs no such
fix-up, so this is the offset the dashboard's week windows carry. -/
def chicagoLMToffsetSec : Int := -21060

/-- Modelled from the spec: the America/Chicago UTC offset (seconds) at a
given UTC instant — UTC−6 in standard time, UTC−5 in daylight time, with the
post-2007 US transition rules (second Sunday of March 02:00 local standard
= 08:00 UTC, to first Sunday of November 02:00 local daylight = 07:00 UTC).
The spec's "correct historical DST transition rules" are modelled for the
post-2007 era only (earlier US rules differed), so every theorem that relies
on this function restricts its instants to 2007 or later — concrete
evaluations here use 2023 instants, and C4's quantifier carries an explicit
lower bound of 2007-01-01T00:00:00Z.  This stands in for the `pytz` zone
database, which is not repository code. -/
def chicagoUtcOffsetSec (utcUs : Int) : Int :=
  let days := utcUs / usPerDay
  let y := (civilFromDays days).1
  let mar1 := daysFromCivil y 3 1
  let firstSunMar := mar1 + (7 - (mar1 + 4) % 7) % 7
  let dstStartUs := (firstSunMar + 7) * usPerDay + 8 * usPerHour
  let nov1 := daysFromCivil y 11 1
  let firstSunNov := nov1 + (7 - (nov1 + 4) % 7) % 7
  let dstEndUs := firstSunNov * usPerDay + 7 * usPerHour
  if dstStartUs ≤ utcUs ∧ utcUs < dstEndUs then -18000 else -21600

/-- Aware Chicago datetime of a UTC instant, as produced by
`dt.astimezone(pytz.timezone('America/Chicago'))` on an aware `dt`:
the wall clock is the instant shifted by the zone's offset at that instant. -/
def chicagoFromUtc (utcUs : Int) : AwareDT :=
  let off := chicagoUtcOffsetSec utcUs
  ⟨utcUs + off * usPerSec, off⟩

/-- Python `str.isdigit` restricted to ASCII digits (the only characters the
feed's numeric timestamps contain): nonempty and all digits. -/
def pyIsdigit (s : List Char) : Bool := !s.isEmpty && s.all Char.isDigit

/-- Value of a digit string, most significant digit first
(Python `int(s)` for a nonnegative digit string). -/
def digitsToNat (s : List Char) : Nat :=
  s.foldl (fun a c => a * 10 + (c.toNat - 48)) 0

/-- Microsecond count of a naive civil timestamp `y-mo-d h:mi:s` validated the
way `datetime.strptime` validates it (month/day/hour/minute/second ranges,
year 1–9999); `none` models the `ValueError` that the caller absorbs. -/
def parseCivil (y mo d h mi s : Nat) : Option Int :=
  if 1 ≤ y ∧ y ≤ 9999 ∧ 1 ≤ mo ∧ mo ≤ 12 ∧ 1 ≤ d ∧ d ≤ daysInMonth y mo
      ∧ h ≤ 23 ∧ mi ≤ 59 ∧ s ≤ 59 then
    some (daysFromCivil y mo d * usPerDay + h * usPerHour + mi * usPerMin
      + s * usPerSec)
  else none

/-- Embedding of `convert_to_chicago_time` (timestamp normalizer).
Branches follow the source: a 13-character all-digit string is epoch
milliseconds UTC — the program computes `int(ts)/1000` with IEEE double
division and `utcfromtimestamp` rounds the result to a microsecond, which
this model replaces by exact integer arithmetic.  The two agree exactly for
`ms < 2^33 · 1000 = 8589934592000` (there the double's half-ulp on the
seconds value is below 0.5 µs, so microsecond rounding recovers the exact
value); for larger 13-digit values the program can deviate by one
microsecond (e.g. `ms = 8589934592001` yields 8589934592000999 µs), so
every theorem about this branch restricts to `ms < 8589934592000`.
A 14-character string is `YYYYMMDDHHMMSS` naive, assumed UTC; a 12-character
string is `YYYYMMDDHHMM` naive, assumed UTC; the remaining general ISO-text
branch (`datetime.fromisoformat`) is outside every verified claim and is
modelled as a parse failure.  A naive result is localized to UTC and
converted to Chicago time; any failure yields `none` (the Python function
returns `None`). -/
def convert_to_chicago_time (timestamp_str : List Char) : Option AwareDT :=
  if pyIsdigit timestamp_str && timestamp_str.length == 13 then
    some (chicagoFromUtc ((digitsToNat timestamp_str : Int) * 1000))
  else if timestamp_str.length == 14 then
    if timestamp_str.all Char.isDigit then
      match parseCivil (digitsToNat (timestamp_str.take 4))
          (digitsToNat ((timestamp_str.drop 4).take 2))
          (digitsToNat ((timestamp_str.drop 6).take 2))
          (digitsToNat ((timestamp_str.drop 8).take 2))
          (digitsToNat ((timestamp_str.drop 10).take 2))
          (digitsToNat ((timestamp_str.drop 12).take 2)) with
      | some u => some (chicagoFromUtc u)
      | none => none
    else none
  else if timestamp_str.length == 12 then
    if timestamp_str.all Char.isDigit then
      match parseCivil (digitsToNat (timestamp_str.take 4))
          (digitsToNat ((timestamp_str.drop 4).take 2))
          (digitsToNat ((timestamp_str.drop 6).take 2))
          (digitsToNat ((timestamp_str.drop 8).take 2))
          (digitsToNat ((timestamp_str.drop 10).take 2)) 0 with
      | some u => some (chicagoFromUtc u)
      | none => none
    else none
  else none

/-- A JSON-like payload value, as produced by `response.json()`.  Numbers are
modelled as exact rationals; object fields keep their textual order. -/
inductive JValue where
  | jnull : JValue
  | jbool (b : Bool) : JValue
  | jnum (q : ℚ) : JValue
  | jstr (s : List Char) : JValue
  | jlist (xs : List JValue) : JValue
  | jdict (kvs : List (List Char × JValue)) : JValue

/-- Python truthiness of a JSON value (`bool(v)`): `None`, `False`, `0`,
empty strings and empty containers are falsy. -/
def jtruthy : JValue → Bool
  | .jnull => false
  | .jbool b => b
  | .jnum q => q != 0
  | .jstr s => !s.isEmpty
  | .jlist xs => !xs.isEmpty
  | .jdict kvs => !kvs.isEmpty

/-- First value bound to key `k` in an object's field list (`item[k]`). -/
def lookupKey (kvs : List (List Char × JValue)) (k : List Char) : Option JValue :=
  match kvs with
  | [] => none
  | (k2, v) :: rest => if k2 = k then some v else lookupKey rest k

/-- The ordered container keys the parser probes for a list of items. -/
def containerKeys : List (List Char) :=
  [strChars "data", strChars "prices", strChars "feed", strChars "results",
   strChars "items"]

/-- The ordered field names probed for a timestamp value. -/
def timestampKeys : List (List Char) :=
  [strChars "millisUTC", strChars "timestamp", strChars "time",
   strChars "date", strChars "datetime"]

/-- The ordered field names probed for a price value. -/
def priceKeys : List (List Char) :=
  [strChars "price", strChars "value", strChars "cost", strChars "rate"]

/-- First key of `keys` that is present in the object and bound to a list;
mirrors the container-key loop (`if key in data and isinstance(..., list)`). -/
def firstListUnderKeys (keys : List (List Char))
    (kvs : List (List Char × JValue)) : Option (List JValue) :=
  match keys with
  | [] => none
  | k :: ks =>
    match lookupKey kvs k with
    | some (.jlist xs) => some xs
    | _ => firstListUnderKeys ks kvs

/-- Value of the first key of `keys` present in the object (regardless of the
value's type); mirrors the timestamp-field loop. -/
def firstFieldValue (keys : List (List Char))
    (kvs : List (List Char × JValue)) : Option JValue :=
  match keys with
  | [] => none
  | k :: ks =>
    match lookupKey kvs k with
    | some v => some v
    | none => firstFieldValue ks kvs

/-- Python `float(s)` on a plain decimal string: optional sign, digits, at
most one point, at least one digit.  Exponent notation, inf/nan and
surrounding whitespace are accepted by Python but are outside every verified
claim and are modelled as failures. -/
def parseDecimalQ (cs : List Char) : Option ℚ :=
  let signed : ℚ × List Char :=
    match cs with
    | '-' :: r => (-1, r)
    | '+' :: r => (1, r)
    | r => (1, r)
  let intPart := signed.2.takeWhile Char.isDigit
  let rest := signed.2.dropWhile Char.isDigit
  match rest with
  | [] =>
    if intPart.isEmpty then none
    else some (signed.1 * (digitsToNat intPart : ℚ))
  | '.' :: frac =>
    if frac.all Char.isDigit ∧ (¬intPart.isEmpty ∨ ¬frac.isEmpty) then
      some (signed.1 * ((digitsToNat intPart : ℚ)
        + (digitsToNat frac : ℚ) / (10 : ℚ) ^ frac.length))
    else none
  | _ => none

/-- Python `float(v)` on a JSON value: numbers pass through, booleans become
0/1, decimal strings are parsed; `None`, lists and objects raise (`none`). -/
def pyFloatQ : JValue → Option ℚ
  | .jnum q => some q
  | .jbool b => some (if b then 1 else 0)
  | .jstr s => parseDecimalQ s
  | _ => none

/-- Value of the first key of `keys` whose value converts with `float`;
a present but unconvertible value falls through to the next key, mirroring
the `try/except: continue` in the price-field loop. -/
def firstPriceValue (keys : List (List Char))
    (kvs : List (List Char × JValue)) : Option ℚ :=
  match keys with
  | [] => none
  | k :: ks =>
    match lookupKey kvs k with
    | some v =>
      match pyFloatQ v with
      | some q => some q
      | none => firstPriceValue ks kvs
    | none => firstPriceValue ks kvs

/-- Decimal digits of `n`, most significant first (fuel-bounded structural
recursion; 40 digits cover every value the pipeline can produce). -/
def natDigitsAux : Nat → Nat → List Char
  | 0, _ => []
  | fuel + 1, n =>
    if n < 10 then [Char.ofNat (48 + n)]
    else natDigitsAux fuel (n / 10) ++ [Char.ofNat (48 + n % 10)]

/-- Python `str(n)` for a natural number. -/
def natDigits (n : Nat) : List Char := natDigitsAux 40 n

/-- Python `str(i)` for an integer. -/
def intRepr (i : Int) : List Char :=
  if i < 0 then '-' :: natDigits (-i).toNat else natDigits i.toNat

/-- Decimal expansion of a rational in `[0, 1)`, fuel-bounded. -/
def fracDigits : Nat → ℚ → List Char
  | 0, _ => []
  | fuel + 1, q =>
    if q = 0 then []
    else
      let q10 := q * 10
      Char.ofNat (48 + q10.floor.toNat) :: fracDigits fuel (q10 - q10.floor)

/-- Python `str(x)` for a nonnegative number: integers print without a point,
other values print integer part, point, fractional digits. -/
def numReprNonneg (q : ℚ) : List Char :=
  if q.den = 1 then natDigits q.num.toNat
  else natDigits q.floor.toNat ++ '.' :: fracDigits 60 (q - q.floor)

/-- Python `str(timestamp)` as applied before normalization.  Strings pass
through unchanged (the only case the verified claims exercise); numbers print
their decimal representation (Python's shortest-round-trip float repr is
approximated by the exact decimal expansion); container, boolean and null
values print markers that — like their Python counterparts — can never parse
as timestamps. -/
def pyStr : JValue → List Char
  | .jstr s => s
  | .jnum q => if q < 0 then '-' :: numReprNonneg (-q) else numReprNonneg q
  | .jbool b => strChars (if b then "True" else "False")
  | .jnull => strChars "None"
  | .jlist _ => strChars "[?]"
  | .jdict _ => strChars "{?}"

/-- Per-item extraction step of `process_data_for_plotting`: locate a
timestamp and a convertible price, keep the item only when the timestamp
value is truthy (`if timestamp and price is not None`), normalization
succeeds, and the price lies in `[0, 1000]`.  Every failure silently skips
the item (`none`). -/
def extractObs (conv : List Char → Option AwareDT) (item : JValue) :
    Option (AwareDT × ℚ) :=
  match item with
  | .jdict kvs =>
    match firstFieldValue timestampKeys kvs, firstPriceValue priceKeys kvs with
    | some ts, some p =>
      if jtruthy ts then
        match conv (pyStr ts) with
        | some t => if 0 ≤ p ∧ p ≤ 1000 then some (t, p) else none
        | none => none
      else none
    | _, _ => none
  | _ => none

/-- Ordering used by Python's `sorted(zip(times, prices))`: tuples compare
lexicographically, and aware datetimes compare by their absolute instant. -/
def obsLe (a b : AwareDT × ℚ) : Prop :=
  a.1.utc < b.1.utc ∨ (a.1.utc = b.1.utc ∧ a.2 ≤ b.2)

instance : DecidableRel obsLe := fun a b =>
  inferInstanceAs (Decidable (a.1.utc < b.1.utc ∨ (a.1.utc = b.1.utc ∧ a.2 ≤ b.2)))

instance : IsTotal (AwareDT × ℚ) obsLe := by
  constructor
  intro a b
  rcases lt_trichotomy a.1.utc b.1.utc with h | h | h
  · exact Or.inl (Or.inl h)
  · rcases le_total a.2 b.2 with h2 | h2
    · exact Or.inl (Or.inr ⟨h, h2⟩)
    · exact Or.inr (Or.inr ⟨h.symm, h2⟩)
  · exact Or.inr (Or.inl h)

instance : IsTrans (AwareDT × ℚ) obsLe := by
  constructor
  intro a b c hab hbc
  rcases hab with h1 | ⟨h1, h2⟩ <;> rcases hbc with h3 | ⟨h3, h4⟩
  · exact Or.inl (h1.trans h3)
  · exact Or.inl (h3 ▸ h1)
  · exact Or.inl (h1 ▸ h3)
  · exact Or.inr ⟨h1.trans h3, h2.trans h4⟩

/-- Result of `process_data_for_plotting`.  The Python function returns a
4-tuple `(times, prices, item_count, error_message)`; the parallel
`times`/`prices` lists are modelled as one list of pairs, and each
`(None, None, None, message)` error shape is one constructor: `noData` is
"No data received", `formatError` is "Unexpected data format: <type>", and
`noValidData n` is "No valid data points found. Processed n items.". -/
inductive ParseResult where
  | noData : ParseResult
  | formatError : ParseResult
  | noValidData (itemsConsidered : Nat) : ParseResult
  | ok (obs : List (AwareDT × ℚ)) (itemsConsidered : Nat) : ParseResult
deriving DecidableEq

/-- Whether a parse result is the fatal unrecognized-shape error. -/
def ParseResult.isFormatError : ParseResult → Bool
  | .formatError => true
  | _ => false

/-- Candidate-item selection of `process_data_for_plotting`: a list is used
directly; for an object, the first container key holding a list supplies the
items, and otherwise — including when that list is empty — the object itself
becomes a one-item list (`if not items: items = [data]`); any other payload
is the fatal unrecognized shape (`none`). -/
def getItems (data : JValue) : Option (List JValue) :=
  match data with
  | .jlist xs => some xs
  | .jdict kvs =>
    some (match firstListUnderKeys containerKeys kvs with
          | some xs => if xs.isEmpty then [.jdict kvs] else xs
          | none => [.jdict kvs])
  | _ => none

/-- Embedding of `process_data_for_plotting` (feed parser), parameterized by
the timestamp normalizer it calls; the program instantiates `conv` with
`convert_to_chicago_time`.  A falsy payload is "No data received"; items are
selected by `getItems`; the per-item loop (modelled by `filterMap`) silently
skips bad items; with zero valid observations the degraded-data message
reports the item count; otherwise observations are returned sorted by
`sorted(zip(times, prices))` together with the item count. -/
def process_data_for_plotting (conv : List Char → Option AwareDT)
    (data : JValue) : ParseResult :=
  if !jtruthy data then .noData
  else
    match getItems data with
    | none => .formatError
    | some items =>
      let obs := items.filterMap (extractObs conv)
      if obs.isEmpty then .noValidData items.length
      else .ok (obs.insertionSort obsLe) items.length

/-- Wall-clock microsecond count of the most recent Sunday's midnight, as
`get_week_boundaries` computes it: `days_since_sunday = (weekday - 6) % 7`
steps back to the latest Sunday (zero steps when today is Sunday), and
`replace(hour=0, minute=0, second=0, microsecond=0)` truncates to midnight. -/
def lastSundayWall (end_date : Int) : Int :=
  let days_since_sunday := (pyWeekdayUs end_date - 6) % 7
  let last_sunday_dt :=
    if days_since_sunday = 0 then end_date
    else end_date - days_since_sunday * usPerDay
  usPerDay * (last_sunday_dt / usPerDay)

/-- Embedding of `get_week_boundaries` (week windower).  The naive `end_date`
gets `pytz.timezone('America/Chicago')` attached by `replace(tzinfo=...)`,
which fixes the LMT offset `chicagoLMToffsetSec` on every derived datetime;
window `i` (0-indexed here, 1-indexed in the dashboard) starts `i` weeks
before the most recent Sunday midnight and ends 6 days, 23:59:59.999999
later.  All `timedelta` arithmetic acts on the wall clock and never changes
the attached offset. -/
def get_week_boundaries (end_date : Int) (num_weeks : Nat) :
    List (AwareDT × AwareDT) :=
  (List.range num_weeks).map (fun (i : Nat) =>
    let week_start := lastSundayWall end_date - (i : Int) * (7 * usPerDay)
    let week_end := week_start + (6 * usPerDay + 23 * usPerHour
      + 59 * usPerMin + 59 * usPerSec + 999999)
    (⟨week_start, chicagoLMToffsetSec⟩, ⟨week_end, chicagoLMToffsetSec⟩))

/-- Window `i` (0-indexed) of `get_week_boundaries`, with a dummy default for
out-of-range indices. -/
def nthWindow (now : Int) (n i : Nat) : AwareDT × AwareDT :=
  (get_week_boundaries now n).getD i (⟨0, 0⟩, ⟨0, 0⟩)

/-- The datetime one microsecond after `d`. -/
def oneMicroLater (d : AwareDT) : AwareDT := ⟨d.wall + 1, d.offsetSec⟩

/-- Membership test of the weekly filter
`df[(df['Time'] >= week_start) & (df['Time'] <= week_end)]`: aware datetimes
compare by absolute instant, and both bounds are inclusive. -/
def timeInWindow (week_start week_end t : AwareDT) : Bool :=
  decide (week_start.utc ≤ t.utc) && decide (t.utc ≤ week_end.utc)

/-- Weekly summary statistics computed by `create_weekly_chart`. -/
structure WeeklyStats where
  avg_price : ℚ
  median_price : ℚ
  min_price : ℚ
  max_price : ℚ
  total_points : Nat
deriving DecidableEq

/-- Median as pandas `Series.median` computes it: sort the values; odd count
takes the middle value, even count averages the two middle values. -/
def pandasMedian (ps : List ℚ) : ℚ :=
  let s := ps.insertionSort (· ≤ ·)
  if ps.length % 2 = 1 then s.getD (ps.length / 2) 0
  else (s.getD (ps.length / 2 - 1) 0 + s.getD (ps.length / 2) 0) / 2

/-- Median following the spec's words, for comparison with `pandasMedian`:
"median (average of two middle values on even count)" over the sorted
values. -/
def medianSpec (ps : List ℚ) : ℚ :=
  let sortedVals := ps.insertionSort (· ≤ ·)
  if ps.length % 2 = 1 then sortedVals.getD (ps.length / 2) 0
  else (sortedVals.getD (ps.length / 2 - 1) 0
    + sortedVals.getD (ps.length / 2) 0) / 2

/-- Minimum of a price list (pandas `Series.min`; only used nonempty). -/
def listMinQ : List ℚ → ℚ
  | [] => 0
  | x :: xs => xs.foldl min x

/-- Maximum of a price list (pandas `Series.max`; only used nonempty). -/
def listMaxQ : List ℚ → ℚ
  | [] => 0
  | x :: xs => xs.foldl max x

/-- Embedding of the data part of `create_weekly_chart` (aggregator): filter
the observations to the inclusive window, return `none` for an empty week
(the `(None, None)` early return — the "no data" marker), and otherwise the
mean/median/min/max/count statistics dictionary.  The plotly figure is
presentation-layer output and is not modelled. -/
def create_weekly_chart (df : List (AwareDT × ℚ))
    (week_start week_end : AwareDT) : Option WeeklyStats :=
  let week_data := df.filter (fun r => timeInWindow week_start week_end r.1)
  if week_data.length = 0 then none
  else
    let ps := week_data.map Prod.snd
    some { avg_price := ps.foldl (· + ·) 0 / (ps.length : ℚ)
         , median_price := pandasMedian ps
         , min_price := listMinQ ps
         , max_price := listMaxQ ps
         , total_points := week_data.length }

/-- Closed form of the windows: window `i` spans the 7-day wall-clock range
starting `i` weeks before the most recent Sunday midnight, with the LMT
offset attached throughout. -/
theorem nthWindow_eq (now : Int) (n i : Nat) (hi : i < n) :
    nthWindow now n i =
      (⟨lastSundayWall now - (i : Int) * (7 * usPerDay), chicagoLMToffsetSec⟩,
       ⟨lastSundayWall now - (i : Int) * (7 * usPerDay) + (6 * usPerDay
         + 23 * usPerHour + 59 * usPerMin + 59 * usPerSec + 999999),
        chicagoLMToffsetSec⟩) := by
  unfold nthWindow get_week_boundaries
  rw [List.getD_eq_getElem?_getD, List.getElem?_map, List.getElem?_range hi]
  rfl

/-- The most recent Sunday midnight really falls on a Python weekday 6
(Sunday), whatever the anchor instant. -/
theorem lastSundayWall_weekday (e : Int) : pyWeekdayUs (lastSundayWall e) = 6 := by
  simp only [lastSundayWall, pyWeekdayUs, usPerDay]
  split <;> omega

/-- Unfolding of the weekly filter's membership test. -/
theorem timeInWindow_iff (a b t : AwareDT) :
    timeInWindow a b t = true ↔ (a.utc ≤ t.utc ∧ t.utc ≤ b.utc) := by
  simp [timeInWindow]

/-- Every observation the per-item step emits carries a price in
`[0, 1000]`. -/
theorem extractObs_price_range {conv : List Char → Option AwareDT}
    {item : JValue} {o : AwareDT × ℚ} (h : extractObs conv item = some o) :
    0 ≤ o.2 ∧ o.2 ≤ 1000 := by
  unfold extractObs at h
  repeat' split at h
  any_goals exact Option.noConfusion h
  cases h
  assumption

/-- C1: the claim says the payload `{"foo": 1}` — a keyed record with no
list under a known container key and not itself a usable record — fails with
`FormatError`.  The code instead treats any such record as a one-item list
(`items = [data]`) and returns the degraded-data signal "No valid data
points found. Processed 1 items.", not the unrecognized-shape error. -/
theorem C1_counterexample :
    process_data_for_plotting convert_to_chicago_time
      (.jdict [(strChars "foo", .jnum 1)]) = .noValidData 1 ∧
    (process_data_for_plotting convert_to_chicago_time
      (.jdict [(strChars "foo", .jnum 1)])).isFormatError = false :=
  ⟨rfl, rfl⟩

/-- C1 (amended): for the payload `{"foo": 1}` the parser treats the record
as a one-item list and returns the degraded-data signal with item count 1;
the `FormatError` outcome is reserved exactly for truthy payloads that are
neither a list nor a keyed record (for which item selection fails). -/
theorem C1_amended_degraded_signal :
    process_data_for_plotting convert_to_chicago_time
      (.jdict [(strChars "foo", .jnum 1)]) = .noValidData 1 ∧
    ∀ (conv : List Char → Option AwareDT) (data : JValue),
      process_data_for_plotting conv data = .formatError ↔
        (jtruthy data = true ∧ getItems data = none) := by
  refine ⟨rfl, fun conv data => ?_⟩
  unfold process_data_for_plotting
  constructor
  · intro h
    by_cases ht : jtruthy data
    · refine ⟨ht, ?_⟩
      cases hg : getItems data with
      | none => rfl
      | some items =>
        exfalso
        rw [ht] at h
        simp only [Bool.not_true, Bool.false_eq_true, if_false, hg] at h
        split at h <;> exact ParseResult.noConfusion h
    · rw [Bool.not_eq_true] at ht
      rw [ht] at h
      simp only [Bool.not_false, if_true] at h
      exact absurd h (by simp)
  · rintro ⟨ht, hg⟩
    rw [ht, hg]
    rfl

/-- C10: an item whose located timestamp value is falsy — the number `0`, or
the empty string — is silently skipped even though a valid in-range numeric
price (3.5) is present, because the emission guard
`if timestamp and price is not None` tests the timestamp for truthiness.
This holds for every normalizer `conv`: the item is dropped before
normalization is ever attempted, so `{"millisUTC": 0, "price": 3.5}`
produces no observation and the parser reports zero valid points from one
item. -/
theorem C10_falsy_timestamp_skipped (conv : List Char → Option AwareDT) :
    process_data_for_plotting conv
      (.jlist [.jdict [(strChars "millisUTC", .jnum 0),
                       (strChars "price", .jnum (mkRat 7 2))]]) = .noValidData 1 ∧
    process_data_for_plotting conv
      (.jlist [.jdict [(strChars "millisUTC", .jstr []),
                       (strChars "price", .jnum (mkRat 7 2))]]) = .noValidData 1 :=
  ⟨rfl, rfl⟩

/-- C7: when the window filter selects no observations, the weekly
aggregation returns the empty marker (`None` statistics) and in particular
never divides by the zero count — the empty check precedes every
statistic. -/
theorem C7_empty_week_marker (df : List (AwareDT × ℚ)) (ws we : AwareDT)
    (h : df.filter (fun r => timeInWindow ws we r.1) = []) :
    create_weekly_chart df ws we = none := by
  unfold create_weekly_chart
  rw [h]
  rfl

/-- C7 witness: a nonempty observation list lying entirely outside the
window yields the empty marker. -/
theorem C7_empty_week_marker_witness :
    ([(⟨10000000, 0⟩, 5)] : List (AwareDT × ℚ)).filter
        (fun r => timeInWindow ⟨0, 0⟩ ⟨1000000, 0⟩ r.1) = [] ∧
    create_weekly_chart [(⟨10000000, 0⟩, 5)] ⟨0, 0⟩ ⟨1000000, 0⟩ = none :=
  ⟨by decide, C7_empty_week_marker _ _ _ (by decide)⟩

/-- C8: for every week whose filtered observation list is nonempty, the
median the aggregator computes equals the spec's definition of median over
the filtered prices (sort; middle value on odd count, average of the two
middle values on even count). -/
theorem C8_median (df : List (AwareDT × ℚ)) (ws we : AwareDT)
    (h : df.filter (fun r => timeInWindow ws we r.1) ≠ []) :
    ∃ st, create_weekly_chart df ws we = some st ∧
      st.median_price =
        medianSpec ((df.filter (fun r => timeInWindow ws we r.1)).map Prod.snd) := by
  unfold create_weekly_chart
  rw [if_neg (by simpa [List.length_eq_zero] using h)]
  exact ⟨_, rfl, rfl⟩

/-- C8 witness: the even-count averaging case of the claim — four in-window
observations with prices `[2, 4, 6, 8]` get median `5`. -/
theorem C8_median_witness :
    (([(⟨1000000, 0⟩, 2), (⟨2000000, 0⟩, 4), (⟨3000000, 0⟩, 6),
       (⟨4000000, 0⟩, 8)] : List (AwareDT × ℚ)).filter
        (fun r => timeInWindow ⟨0, 0⟩ ⟨4000000, 0⟩ r.1) ≠ []) ∧
    (∃ st, create_weekly_chart
        [(⟨1000000, 0⟩, 2), (⟨2000000, 0⟩, 4), (⟨3000000, 0⟩, 6), (⟨4000000, 0⟩, 8)]
        ⟨0, 0⟩ ⟨4000000, 0⟩ = some st ∧
      st.median_price =
        medianSpec ((([(⟨1000000, 0⟩, 2), (⟨2000000, 0⟩, 4), (⟨3000000, 0⟩, 6),
          (⟨4000000, 0⟩, 8)] : List (AwareDT × ℚ)).filter
            (fun r => timeInWindow ⟨0, 0⟩ ⟨4000000, 0⟩ r.1)).map Prod.snd)) ∧
    medianSpec ((([(⟨1000000, 0⟩, 2), (⟨2000000, 0⟩, 4), (⟨3000000, 0⟩, 6),
          (⟨4000000, 0⟩, 8)] : List (AwareDT × ℚ)).filter
            (fun r => timeInWindow ⟨0, 0⟩ ⟨4000000, 0⟩ r.1)).map Prod.snd) = 5 :=
  ⟨by decide, C8_median _ _ _ (by decide),
    by norm_num [medianSpec, List.insertionSort, List.orderedInsert, List.filter,
      timeInWindow, AwareDT.utc, usPerSec]⟩

/-- Membership in window `k`, spelled out as two inequalities on the
observation's absolute instant (`utc` unfolded to wall minus offset so every
occurrence of the observation uses the same atoms). -/
theorem mem_nthWindow_iff (now : Int) (n k : Nat) (hk : k < n) (t : AwareDT) :
    timeInWindow (nthWindow now n k).1 (nthWindow now n k).2 t = true ↔
      (lastSundayWall now + 21060000000 - (k : Int) * 604800000000
          ≤ t.wall - t.offsetSec * 1000000 ∧
       t.wall - t.offsetSec * 1000000
          ≤ lastSundayWall now + 21060000000 - (k : Int) * 604800000000
            + 604799999999) := by
  rw [nthWindow_eq now n k hk]
  simp only [timeInWindow, AwareDT.utc, chicagoLMToffsetSec, usPerDay, usPerHour,
    usPerMin, usPerSec, Bool.and_eq_true, decide_eq_true_eq]
  omega

/-- C2: for every anchor instant and every count `n ≥ 1`, the windower
returns exactly `n` windows; each window's end is its start plus
6 days 23:59:59.999999; window `i` starts exactly `7·i` days before window 0
(the claim's 1-indexed window `i` starts `7·(i−1)` days before window 1);
consecutive windows are contiguous to the microsecond; earlier-indexed
(more recent) windows lie strictly later than later-indexed ones, so windows
are non-overlapping and descending; and window 0's start falls on a Sunday
(Python weekday 6). -/
theorem C2_week_windower (now : Int) (n : Nat) (hn : 1 ≤ n) :
    (get_week_boundaries now n).length = n ∧
    (∀ i, i < n →
      (nthWindow now n i).2.wall = (nthWindow now n i).1.wall
        + (6 * usPerDay + 23 * usPerHour + 59 * usPerMin + 59 * usPerSec + 999999) ∧
      (nthWindow now n i).1.wall
        = (nthWindow now n 0).1.wall - 7 * (i : Int) * usPerDay) ∧
    (∀ i, i + 1 < n →
      (nthWindow now n (i + 1)).2.wall + 1 = (nthWindow now n i).1.wall) ∧
    (∀ i j, i < j → j < n →
      (nthWindow now n j).2.wall < (nthWindow now n i).1.wall) ∧
    pyWeekdayUs ((nthWindow now n 0).1.wall) = 6 := by
  have h0 : 0 < n := hn
  refine ⟨?_, ?_, ?_, ?_, ?_⟩
  · simp [get_week_boundaries]
  · intro i hi
    rw [nthWindow_eq now n i hi, nthWindow_eq now n 0 h0]
    constructor
    · push_cast
      ring
    · push_cast
      ring
  · intro i hi1
    rw [nthWindow_eq now n (i + 1) hi1, nthWindow_eq now n i (by omega)]
    simp only [usPerDay, usPerHour, usPerMin, usPerSec]
    push_cast
    omega
  · intro i j hij hj
    rw [nthWindow_eq now n j hj, nthWindow_eq now n i (by omega)]
    simp only [usPerDay, usPerHour, usPerMin, usPerSec]
    have hij2 : (i : Int) < (j : Int) := by exact_mod_cast hij
    omega
  · rw [nthWindow_eq now n 0 h0]
    simpa using lastSundayWall_weekday now

/-- C2 witness: at anchor 0 and count 2, the windower's claimed shape holds
concretely. -/
theorem C2_week_windower_witness :
    1 ≤ 2 ∧
    (get_week_boundaries 0 2).length = 2 ∧
    ((nthWindow 0 2 1).2.wall + 1 = (nthWindow 0 2 0).1.wall) ∧
    ((nthWindow 0 2 1).2.wall < (nthWindow 0 2 0).1.wall) ∧
    pyWeekdayUs ((nthWindow 0 2 0).1.wall) = 6 :=
  ⟨by decide, (C2_week_windower 0 2 (by decide)).1,
   (C2_week_windower 0 2 (by decide)).2.2.1 0 (by decide),
   (C2_week_windower 0 2 (by decide)).2.2.2.1 0 1 (by decide) (by decide),
   (C2_week_windower 0 2 (by decide)).2.2.2.2⟩

/-- C9: all window boundaries carry the same fixed UTC offset (the LMT
offset `replace(tzinfo=...)` attaches to `now`), so consecutive window
starts are exactly 7×24 hours apart in absolute time and every window spans
exactly 6 days 23:59:59.999999 of absolute time — for every anchor and
count, hence in particular across any daylight-saving transition inside the
range. -/
theorem C9_fixed_offset_windows (now : Int) (n : Nat) :
    (∀ i, i < n →
      (nthWindow now n i).1.offsetSec = chicagoLMToffsetSec ∧
      (nthWindow now n i).2.offsetSec = chicagoLMToffsetSec) ∧
    (∀ i, i + 1 < n →
      (nthWindow now n i).1.utc - (nthWindow now n (i + 1)).1.utc
        = 7 * 24 * usPerHour) ∧
    (∀ i, i < n →
      (nthWindow now n i).2.utc - (nthWindow now n i).1.utc
        = 6 * usPerDay + 23 * usPerHour + 59 * usPerMin + 59 * usPerSec + 999999) := by
  refine ⟨?_, ?_, ?_⟩
  · intro i hi
    rw [nthWindow_eq now n i hi]
    exact ⟨rfl, rfl⟩
  · intro i hi1
    rw [nthWindow_eq now n i (by omega), nthWindow_eq now n (i + 1) hi1]
    simp only [AwareDT.utc, chicagoLMToffsetSec, usPerDay, usPerHour, usPerMin,
      usPerSec]
    push_cast
    omega
  · intro i hi
    rw [nthWindow_eq now n i hi]
    simp only [AwareDT.utc, chicagoLMToffsetSec, usPerDay, usPerHour, usPerMin,
      usPerSec]
    omega

/-- C9 witness: at anchor 0 and count 3, the fixed offset, the exact
7×24-hour spacing and the exact window span hold concretely. -/
theorem C9_fixed_offset_windows_witness :
    ((nthWindow 0 3 0).1.offsetSec = chicagoLMToffsetSec ∧
     (nthWindow 0 3 0).2.offsetSec = chicagoLMToffsetSec) ∧
    (nthWindow 0 3 0).1.utc - (nthWindow 0 3 1).1.utc = 7 * 24 * usPerHour ∧
    (nthWindow 0 3 2).2.utc - (nthWindow 0 3 2).1.utc
      = 6 * usPerDay + 23 * usPerHour + 59 * usPerMin + 59 * usPerSec + 999999 :=
  ⟨(C9_fixed_offset_windows 0 3).1 0 (by decide),
   (C9_fixed_offset_windows 0 3).2.1 0 (by decide),
   (C9_fixed_offset_windows 0 3).2.2 2 (by decide)⟩

/-- C6: window membership is inclusive at both bounds — an observation
exactly at a window's end (Saturday 23:59:59.999999) is in that window's
filter; one microsecond later it leaves that window and (when a more recent
window exists) enters the adjacent window `i − 1`; and every instant in the
covered range (from the oldest window's start to window 0's end) belongs to
exactly one window. -/
theorem C6_window_membership (now : Int) (n i : Nat) (t : AwareDT)
    (hi : i < n)
    (ht1 : (nthWindow now n (n - 1)).1.utc ≤ t.utc)
    (ht2 : t.utc ≤ (nthWindow now n 0).2.utc) :
    timeInWindow (nthWindow now n i).1 (nthWindow now n i).2
      ((nthWindow now n i).2) = true ∧
    (1 ≤ i →
      timeInWindow (nthWindow now n i).1 (nthWindow now n i).2
        (oneMicroLater (nthWindow now n i).2) = false ∧
      timeInWindow (nthWindow now n (i - 1)).1 (nthWindow now n (i - 1)).2
        (oneMicroLater (nthWindow now n i).2) = true) ∧
    ∃! k, k < n ∧
      timeInWindow (nthWindow now n k).1 (nthWindow now n k).2 t = true := by
  have h0 : 0 < n := by omega
  have hEi := nthWindow_eq now n i hi
  refine ⟨?_, ?_, ?_⟩
  · rw [mem_nthWindow_iff now n i hi, hEi]
    simp only [chicagoLMToffsetSec, usPerDay, usPerHour, usPerMin, usPerSec]
    omega
  · intro hi1
    constructor
    · rw [Bool.eq_false_iff, Ne, mem_nthWindow_iff now n i hi, hEi]
      simp only [oneMicroLater, chicagoLMToffsetSec, usPerDay, usPerHour,
        usPerMin, usPerSec]
      omega
    · rw [mem_nthWindow_iff now n (i - 1) (by omega), hEi]
      simp only [oneMicroLater, chicagoLMToffsetSec, usPerDay, usPerHour,
        usPerMin, usPerSec]
      have hcast : ((i - 1 : Nat) : Int) = (i : Int) - 1 := by omega
      rw [hcast]
      omega
  · rw [nthWindow_eq now n (n - 1) (by omega)] at ht1
    rw [nthWindow_eq now n 0 h0] at ht2
    simp only [AwareDT.utc, chicagoLMToffsetSec, usPerDay, usPerHour, usPerMin,
      usPerSec] at ht1 ht2
    refine ⟨((lastSundayWall now + 21060000000 + 604799999999
        - (t.wall - t.offsetSec * 1000000)) / 604800000000).toNat, ⟨?_, ?_⟩, ?_⟩
    · omega
    · rw [mem_nthWindow_iff now n _ (by omega)]
      omega
    · rintro y ⟨hy, hymem⟩
      rw [mem_nthWindow_iff now n y hy] at hymem
      omega

/-- C6 witness: with anchor 0, two windows and the observation at instant 0
(inside window 1), inclusive-boundary membership and unique window
assignment hold concretely. -/
theorem C6_window_membership_witness :
    (1 < 2 ∧
     (nthWindow 0 2 (2 - 1)).1.utc ≤ (⟨0, -21060⟩ : AwareDT).utc ∧
     (⟨0, -21060⟩ : AwareDT).utc ≤ (nthWindow 0 2 0).2.utc) ∧
    (timeInWindow (nthWindow 0 2 1).1 (nthWindow 0 2 1).2
       ((nthWindow 0 2 1).2) = true ∧
     (1 ≤ 1 →
       timeInWindow (nthWindow 0 2 1).1 (nthWindow 0 2 1).2
         (oneMicroLater (nthWindow 0 2 1).2) = false ∧
       timeInWindow (nthWindow 0 2 (1 - 1)).1 (nthWindow 0 2 (1 - 1)).2
         (oneMicroLater (nthWindow 0 2 1).2) = true) ∧
     ∃! k, k < 2 ∧
       timeInWindow (nthWindow 0 2 k).1 (nthWindow 0 2 k).2
         (⟨0, -21060⟩ : AwareDT) = true) :=
  ⟨⟨by decide, by decide, by decide⟩,
   C6_window_membership 0 2 1 ⟨0, -21060⟩ (by decide) (by decide) (by decide)⟩

/-- Converting a UTC instant to Chicago time preserves the absolute
instant. -/
theorem utc_chicagoFromUtc (u : Int) : (chicagoFromUtc u).utc = u := by
  simp [chicagoFromUtc, AwareDT.utc]

/-- C3: the claim says window 1 is anchored at the most recent Sunday's
local midnight under America/Chicago standard/daylight offset rules.  The
code's `end_date.replace(tzinfo=pytz.timezone('America/Chicago'))` instead
attaches the zone's minute-rounded LMT offset (UTC−5:51:00), never the
CST/CDT offset.  At the naive anchor 2023-11-15 12:00:00 (a Wednesday in
standard time), the window-1 start has the right wall-clock reading
(midnight Sunday 2023-11-12) but carries offset −21060 s where the zone's
true offset at that instant is −21600 s (CST), so its absolute instant is
not the Chicago local-midnight instant 2023-11-12T06:00:00Z — it is
2023-11-12T05:51:00Z, 540 seconds earlier. -/
theorem C3_lmt_offset_bug :
    (nthWindow (daysFromCivil 2023 11 15 * usPerDay + 12 * usPerHour) 1 0).1.wall
      = daysFromCivil 2023 11 12 * usPerDay ∧
    (nthWindow (daysFromCivil 2023 11 15 * usPerDay + 12 * usPerHour) 1 0).1.offsetSec
      = -21060 ∧
    chicagoUtcOffsetSec
      ((nthWindow (daysFromCivil 2023 11 15 * usPerDay + 12 * usPerHour) 1 0).1.utc)
      = -21600 ∧
    (nthWindow (daysFromCivil 2023 11 15 * usPerDay + 12 * usPerHour) 1 0).1.utc
      ≠ daysFromCivil 2023 11 12 * usPerDay + 21600 * usPerSec :=
  ⟨by decide, by decide, by decide, by decide⟩

/-- C4: the claim says the normalized instant's UTC value equals
`floor(ms/1000)` seconds since the epoch.  The code computes
`int(ts)/1000` with true division and keeps the fractional milliseconds:
for `ms = 1700000000500` the instant sits at 1700000000.5 s, not at
1700000000 s. -/
theorem C4_counterexample :
    ∃ dt, convert_to_chicago_time (strChars "1700000000500") = some dt ∧
      dt.utc ≠ 1700000000 * usPerSec :=
  ⟨chicagoFromUtc (1700000000500 * 1000), by decide, by decide⟩

/-- C4 (amended): for every 13-digit epoch-millisecond string whose value
lies in `[1167609600000, 8589934592000)` — instants from 2007-01-01T00:00:00Z
(the era covered by the modelled post-2007 Chicago transition rules) to
2242 (below `2^33` seconds, where the program's float division plus
microsecond rounding is exact) — the normalizer succeeds with an instant
whose UTC value is exactly `ms` milliseconds since the epoch (so its
whole-second part is `floor(ms/1000)`), converted to the target zone by
attaching the zone's UTC offset at that instant and shifting the wall clock
accordingly.  Outside these bounds the program diverges from this exact
model (1 µs float deviations above, pre-2007 DST rules below), so the
amended claim does not cover them. -/
theorem C4_amended_normalizer (s : List Char) (h1 : s.length = 13)
    (h2 : s.all Char.isDigit = true)
    (h3 : 1167609600000 ≤ digitsToNat s)
    (h4 : digitsToNat s < 8589934592000) :
    convert_to_chicago_time s
      = some (chicagoFromUtc ((digitsToNat s : Int) * 1000)) ∧
    (chicagoFromUtc ((digitsToNat s : Int) * 1000)).utc
      = (digitsToNat s : Int) * 1000 ∧
    (chicagoFromUtc ((digitsToNat s : Int) * 1000)).utc / usPerSec
      = (digitsToNat s : Int) / 1000 ∧
    (chicagoFromUtc ((digitsToNat s : Int) * 1000)).offsetSec
      = chicagoUtcOffsetSec ((digitsToNat s : Int) * 1000) ∧
    (chicagoFromUtc ((digitsToNat s : Int) * 1000)).wall
      = (digitsToNat s : Int) * 1000
        + chicagoUtcOffsetSec ((digitsToNat s : Int) * 1000) * usPerSec := by
  have hne : s.isEmpty = false := by
    cases s
    · simp at h1
    · simp
  refine ⟨?_, utc_chicagoFromUtc _, ?_, rfl, rfl⟩
  · unfold convert_to_chicago_time
    rw [if_pos]
    simp [pyIsdigit, hne, h2, h1]
  · rw [utc_chicagoFromUtc]
    simp only [usPerSec]
    omega

/-- C4 witness: a standard-time instant (`1700000000000` ms,
2023-11-14T22:13:20Z, offset CST −21600) and a daylight-time instant
(`1689000000000` ms, 2023-07-10T15:20:00Z, offset CDT −18000). -/
theorem C4_amended_normalizer_witness :
    ((strChars "1700000000000").length = 13 ∧
     (strChars "1700000000000").all Char.isDigit = true ∧
     1167609600000 ≤ digitsToNat (strChars "1700000000000") ∧
     digitsToNat (strChars "1700000000000") < 8589934592000 ∧
     convert_to_chicago_time (strChars "1700000000000")
       = some (chicagoFromUtc ((digitsToNat (strChars "1700000000000") : Int) * 1000)) ∧
     chicagoUtcOffsetSec ((digitsToNat (strChars "1700000000000") : Int) * 1000)
       = -21600) ∧
    ((strChars "1689000000000").length = 13 ∧
     (strChars "1689000000000").all Char.isDigit = true ∧
     1167609600000 ≤ digitsToNat (strChars "1689000000000") ∧
     digitsToNat (strChars "1689000000000") < 8589934592000 ∧
     convert_to_chicago_time (strChars "1689000000000")
       = some (chicagoFromUtc ((digitsToNat (strChars "1689000000000") : Int) * 1000)) ∧
     chicagoUtcOffsetSec ((digitsToNat (strChars "1689000000000") : Int) * 1000)
       = -18000) :=
  ⟨⟨by decide, by decide, by decide, by decide,
    (C4_amended_normalizer _ (by decide) (by decide) (by decide) (by decide)).1,
    by decide⟩,
   ⟨by decide, by decide, by decide, by decide,
    (C4_amended_normalizer _ (by decide) (by decide) (by decide) (by decide)).1,
    by decide⟩⟩

/-- C5: whenever the parser returns an observation set (for any payload and
any normalizer), every returned price lies in `[0, 1000]` — observations
with out-of-range prices were excluded by the per-item guard — and the set
is sorted ascending by instant regardless of the input order. -/
theorem C5_range_and_sorted (conv : List Char → Option AwareDT) (data : JValue)
    (obs : List (AwareDT × ℚ)) (cnt : Nat)
    (h : process_data_for_plotting conv data = .ok obs cnt) :
    (∀ o ∈ obs, 0 ≤ o.2 ∧ o.2 ≤ 1000) ∧
    obs.Pairwise (fun a b => a.1.utc ≤ b.1.utc) := by
  unfold process_data_for_plotting at h
  by_cases ht : jtruthy data
  case neg =>
    rw [Bool.not_eq_true] at ht
    rw [ht] at h
    simp only [Bool.not_false, if_true] at h
    exact ParseResult.noConfusion h
  rw [ht] at h
  simp only [Bool.not_true, Bool.false_eq_true, if_false] at h
  cases hg : getItems data with
  | none =>
    rw [hg] at h
    exact ParseResult.noConfusion h
  | some items =>
    rw [hg] at h
    dsimp only at h
    by_cases he : (items.filterMap (extractObs conv)).isEmpty
    · rw [if_pos he] at h
      exact ParseResult.noConfusion h
    · rw [if_neg he] at h
      injection h with h1 h2
      subst h1
      constructor
      · intro o ho
        rw [List.mem_insertionSort] at ho
        obtain ⟨item, _, hx⟩ := List.mem_filterMap.mp ho
        exact extractObs_price_range hx
      · have hs := List.sorted_insertionSort obsLe (items.filterMap (extractObs conv))
        exact List.Pairwise.imp
          (fun hab => hab.elim le_of_lt (fun hq => le_of_eq hq.1)) hs

/-- C5 witness: a one-item feed payload parses to a sorted, in-range
observation set. -/
theorem C5_range_and_sorted_witness :
    process_data_for_plotting convert_to_chicago_time
      (.jlist [.jdict [(strChars "millisUTC", .jstr (strChars "1700000000000")),
                       (strChars "price", .jnum 3)]])
      = .ok [(⟨1699978400000000, -21600⟩, 3)] 1 ∧
    ((∀ o ∈ ([(⟨1699978400000000, -21600⟩, 3)] : List (AwareDT × ℚ)),
        0 ≤ o.2 ∧ o.2 ≤ 1000) ∧
     ([(⟨1699978400000000, -21600⟩, (3 : ℚ))] : List (AwareDT × ℚ)).Pairwise
       (fun a b => a.1.utc ≤ b.1.utc)) :=
  ⟨by decide,
   C5_range_and_sorted convert_to_chicago_time
     (.jlist [.jdict [(strChars "millisUTC", .jstr (strChars "1700000000000")),
                      (strChars "price", .jnum 3)]])
     [(⟨1699978400000000, -21600⟩, 3)] 1 (by decide)⟩

end ComedDash
